import Mathlib

/-!
Shallow embedding of `src/implementation.js` of the typingmind-repo-assistant
repository: a question-answering layer over the GitHub REST API.  JavaScript
strings become Lean `String`s, possibly-null/undefined string fields become
`Option String` (with JavaScript truthiness and interpolation modelled
explicitly), counts become `Nat`, and the external Octokit API calls become an
explicit `Octokit` record of call results.  Fallible paths return
`Except String`; alongside the result we thread a `Nat` counting how many
external API calls were attempted, so that "no API call is made" claims are
statable.  `Date.toLocaleDateString` is an opaque formatting function passed
in as a parameter `fmtDate`.
-/

namespace RepoAssistant

/-- JavaScript `String.prototype.toLowerCase` on the character list of the
string (the keywords involved are all ASCII). -/
def jsToLowerCase (s : String) : String :=
  ⟨s.data.map Char.toLower⟩

/-- JavaScript `String.prototype.includes`: substring containment. -/
def strContains (s pat : String) : Bool :=
  decide (pat.data <:+: s.data)

/-- JavaScript truthiness of a possibly-absent string: `undefined`/`null` and
the empty string are falsy, every other string is truthy. -/
def jsTruthyStr : Option String → Bool
  | none => false
  | some s => !s.data.isEmpty

/-- JavaScript `v || dflt` for a possibly-absent string `v`. -/
def jsOr : Option String → String → String
  | none, dflt => dflt
  | some s, dflt => if s.data.isEmpty then dflt else s

/-- JavaScript template interpolation of a possibly-absent string:
an absent value renders as the placeholder text. -/
def jsInterp : Option String → String
  | none => "undefined"
  | some s => s

/-- The three question categories returned by `analyzeQuestionType`. -/
inductive QuestionType where
  | general
  | technical
  | statistics
  deriving DecidableEq, Repr

/-- One item of the `octokit.search.code` result list (the fields used). -/
structure SearchItem where
  name : String
  path : String
  html_url : String
  deriving DecidableEq, Repr

/-- An entry of `Answer.relatedFiles`, as built by `findTechnicalAnswer`. -/
structure RelatedFile where
  name : String
  path : String
  url : String
  deriving DecidableEq, Repr

/-- The result object assembled by `generateAnswer`. -/
structure Answer where
  text : String
  relatedFiles : List RelatedFile
  suggestions : List String
  deriving DecidableEq, Repr

/-- The repository metadata fields of the `octokit.repos.get` payload that the
implementation consumes.  `description`, `homepage` and `language` may be
null/undefined upstream, hence `Option String`. -/
structure RepoData where
  description : Option String
  homepage : Option String
  language : Option String
  size : Nat
  stargazers_count : Nat
  forks_count : Nat
  open_issues_count : Nat
  created_at : String
  updated_at : String
  full_name : String
  has_pages : Bool
  deriving DecidableEq, Repr

/-- The merged structure built by `getRepositoryInfo`: the repo metadata spread
together with the language-name list (`Object.keys(languages)`, in key order)
and the topic-name list. -/
structure RepoInfo extends RepoData where
  languages : List String
  topics : List String
  deriving DecidableEq, Repr

/-- The external GitHub API, modelled as the outcome each of the four calls
made by the implementation would have: the three metadata reads and the code
search (the latter as a function of the query string sent). -/
structure Octokit where
  reposGet : Except String RepoData
  listLanguages : Except String (List String)
  getAllTopics : Except String (List String)
  searchCode : String → Except String (List SearchItem)

/-- The `params` argument of `answer_repository_question`. -/
structure Params where
  owner : String
  repo : String
  question : String
  context : Option String
  deriving DecidableEq, Repr

/-- The `userSettings` argument of `answer_repository_question`. -/
structure UserSettings where
  githubToken : Option String
  deriving DecidableEq, Repr

/-- `getRepositoryInfo` (implementation.js line 40): issues the three metadata
calls in order and merges the results.  The second component counts the API
calls attempted (a call that throws still counts as attempted). -/
def getRepositoryInfo (octokit : Octokit) : Except String RepoInfo × Nat :=
  match octokit.reposGet with
  | Except.error e => (Except.error e, 1)
  | Except.ok repoData =>
    match octokit.listLanguages with
    | Except.error e => (Except.error e, 2)
    | Except.ok languages =>
      match octokit.getAllTopics with
      | Except.error e => (Except.error e, 3)
      | Except.ok topics =>
        (Except.ok { toRepoData := repoData, languages := languages, topics := topics }, 3)

/-- `analyzeQuestionType` (implementation.js line 110): lower-case the
question, return `technical` if any technical keyword is a substring, else
`statistics` if any statistics keyword is a substring, else `general`. -/
def technicalKeywords : List String :=
  ["how", "implement", "code", "function", "class", "method"]

/-- The statistics keyword list of `analyzeQuestionType`. -/
def statisticsKeywords : List String :=
  ["many", "count", "size", "number", "statistics"]

/-- The question classifier (implementation.js lines 110-123). -/
def analyzeQuestionType (question : String) : QuestionType :=
  let q := jsToLowerCase question
  if technicalKeywords.any (fun keyword => strContains q keyword) then
    QuestionType.technical
  else if statisticsKeywords.any (fun keyword => strContains q keyword) then
    QuestionType.statistics
  else
    QuestionType.general

/-- `generateGeneralAnswer` (implementation.js lines 131-141).  The `about`
test is `question.includes('about')` on the original question.  In the
template, `description || 'a project'` falls back on falsy description, the
homepage clause appears iff `homepage` is truthy, and the topics clause
appears iff `topics` is non-empty.  The non-about branch interpolates the raw
`description` field. -/
def generateGeneralAnswer (repoInfo : RepoInfo) (question : String) : String :=
  if strContains question "about" then
    "This repository is " ++ jsOr repoInfo.description "a project" ++
      " written primarily in " ++ jsInterp repoInfo.language ++ ". " ++
      (if jsTruthyStr repoInfo.homepage then
        "You can find more information at " ++ jsInterp repoInfo.homepage ++ "."
      else "") ++
      " " ++
      (if repoInfo.topics.length > 0 then
        "It\x27s tagged with the following topics: " ++
          String.intercalate ", " repoInfo.topics ++ "."
      else "")
  else
    "I found some general information about the repository: " ++
      jsInterp repoInfo.description

/-- The character class kept by `question.replace(/[^\w\s]/g, ' ')`:
word characters (`\w`) and whitespace (`\s`). -/
def jsWordOrSpace (c : Char) : Bool :=
  c.isAlphanum || c == '_' || c.isWhitespace

/-- The code-search query built at implementation.js line 152: the question
with every non-word, non-space character replaced by a space, followed by the
`repo:` scope qualifier. -/
def searchQuery (repoInfo : RepoInfo) (question : String) : String :=
  ⟨question.data.map (fun c => if jsWordOrSpace c then c else ' ')⟩ ++
    " repo:" ++ repoInfo.full_name

/-- `findTechnicalAnswer` (implementation.js lines 150-169): run the code
search (page size 5 is part of the request, not of this logic), map each hit
to a `RelatedFile`, and render either the listing text or the fixed
"could not find" message. -/
def findTechnicalAnswer (octokit : Octokit) (repoInfo : RepoInfo)
    (question : String) : Except String (String × List RelatedFile) :=
  match octokit.searchCode (searchQuery repoInfo question) with
  | Except.error e => Except.error e
  | Except.ok items =>
    let files := items.map (fun item =>
      { name := item.name, path := item.path, url := item.html_url : RelatedFile })
    let text :=
      if files.length > 0 then
        "I found some relevant files that might help answer your question:\n\n" ++
          String.intercalate "\n"
            (files.map (fun f => "- " ++ f.path ++ " (" ++ f.url ++ ")"))
      else
        "I could not find any relevant code files for your technical question."
    Except.ok (text, files)

/-- `generateStatisticsAnswer` (implementation.js lines 177-199).  The stats
snapshot is derived from `repoInfo`; `fmtDate` stands for
`new Date(x).toLocaleDateString()`.  Dispatch is by `question.includes(...)`
on the original question, first match wins. -/
def generateStatisticsAnswer (fmtDate : String → String) (repoInfo : RepoInfo)
    (question : String) : String :=
  let stars := repoInfo.stargazers_count
  let forks := repoInfo.forks_count
  let issues := repoInfo.open_issues_count
  let languagesCount := repoInfo.languages.length
  let created := fmtDate repoInfo.created_at
  let updated := fmtDate repoInfo.updated_at
  if strContains question "language" then
    "The repository uses " ++ toString languagesCount ++ " languages: " ++
      String.intercalate ", " repoInfo.languages
  else if strContains question "popular" || strContains question "stars" then
    "The repository has " ++ toString stars ++ " stars and " ++
      toString forks ++ " forks"
  else if strContains question "issue" then
    "There are currently " ++ toString issues ++ " open issues"
  else
    "Repository statistics:\n- Size: " ++ toString repoInfo.size ++
      "KB\n- Stars: " ++ toString stars ++
      "\n- Forks: " ++ toString forks ++
      "\n- Open Issues: " ++ toString issues ++
      "\n- Created: " ++ created ++
      "\n- Last Updated: " ++ updated

/-- `generateSuggestions` (implementation.js lines 208-225): four independent
checks in fixed order, each appending its advisory when the condition holds.
`question` and `context` are accepted but unused, as in the source. -/
def generateSuggestions (repoInfo : RepoInfo) (question context : String) :
    List String :=
  (if !jsTruthyStr repoInfo.description then
    ["Add a repository description to help users understand the project better"]
  else []) ++
  (if !jsTruthyStr repoInfo.homepage && !repoInfo.has_pages then
    ["Consider adding a homepage or enabling GitHub Pages"]
  else []) ++
  (if repoInfo.topics.length = 0 then
    ["Add repository topics to improve discoverability"]
  else []) ++
  (if repoInfo.open_issues_count > 20 then
    ["Consider addressing some open issues to improve repository health"]
  else [])

/-- `generateAnswer` (implementation.js lines 71-103): classify the question,
dispatch to the matching generator (only the technical branch calls the API),
then fill in suggestions when `context` is truthy.  The `Nat` counts API calls
attempted inside this function. -/
def generateAnswer (octokit : Octokit) (fmtDate : String → String)
    (repoInfo : RepoInfo) (question : String) (context : Option String) :
    Except String Answer × Nat :=
  let base : Except String (String × List RelatedFile) × Nat :=
    match analyzeQuestionType question with
    | QuestionType.general =>
      (Except.ok (generateGeneralAnswer repoInfo question, []), 0)
    | QuestionType.technical =>
      (findTechnicalAnswer octokit repoInfo question, 1)
    | QuestionType.statistics =>
      (Except.ok (generateStatisticsAnswer fmtDate repoInfo question, []), 0)
  match base with
  | (Except.error e, n) => (Except.error e, n)
  | (Except.ok (text, files), n) =>
    (Except.ok
      { text := text
        relatedFiles := files
        suggestions :=
          if jsTruthyStr context then
            generateSuggestions repoInfo question (jsInterp context)
          else [] }, n)

/-- `answer_repository_question` (implementation.js lines 15-31): reject a
falsy token before any API call; otherwise fetch the repository info, generate
the answer, and wrap any failure in the fixed "Failed to answer question"
message.  The `Nat` counts API calls attempted over the whole run. -/
def answer_repository_question (octokit : Octokit) (fmtDate : String → String)
    (params : Params) (userSettings : UserSettings) :
    Except String Answer × Nat :=
  if jsTruthyStr userSettings.githubToken then
    match getRepositoryInfo octokit with
    | (Except.error e, n) =>
      (Except.error ("Failed to answer question: " ++ e), n)
    | (Except.ok repoInfo, n) =>
      match generateAnswer octokit fmtDate repoInfo params.question params.context with
      | (Except.error e, m) =>
        (Except.error ("Failed to answer question: " ++ e), n + m)
      | (Except.ok answer, m) => (Except.ok answer, n + m)
  else
    (Except.error "GitHub token is required", 0)

/-! ## Sample values used by witnesses -/

/-- A concrete repository snapshot used by several witnesses. -/
def sampleRepoData : RepoData :=
  { description := some "A demo tool"
    homepage := none
    language := some "Go"
    size := 10
    stargazers_count := 42
    forks_count := 7
    open_issues_count := 3
    created_at := "2020-01-01T00:00:00Z"
    updated_at := "2020-06-01T00:00:00Z"
    full_name := "octo/demo"
    has_pages := false }

/-- The sample repository info corresponding to `sampleRepoData`. -/
def sampleRepoInfo : RepoInfo :=
  { toRepoData := sampleRepoData, languages := ["Go", "Lean"], topics := [] }

/-! ## Claims -/

/-- C1: classification lower-cases the question and returns `technical` iff a
technical keyword occurs as a substring, else `statistics` iff a statistics
keyword occurs as a substring, else `general`; the technical set takes
precedence and the result is always exactly one of the three variants. -/
theorem analyzeQuestionType_keyword_characterization (q : String) :
    (analyzeQuestionType q = QuestionType.technical ↔
      (∃ k ∈ technicalKeywords, k.data <:+: (jsToLowerCase q).data)) ∧
    (analyzeQuestionType q = QuestionType.statistics ↔
      ((¬ ∃ k ∈ technicalKeywords, k.data <:+: (jsToLowerCase q).data) ∧
        (∃ k ∈ statisticsKeywords, k.data <:+: (jsToLowerCase q).data))) ∧
    (analyzeQuestionType q = QuestionType.general ↔
      ((¬ ∃ k ∈ technicalKeywords, k.data <:+: (jsToLowerCase q).data) ∧
        (¬ ∃ k ∈ statisticsKeywords, k.data <:+: (jsToLowerCase q).data))) := by
  have hT : (technicalKeywords.any fun keyword => strContains (jsToLowerCase q) keyword) = true ↔
      ∃ k ∈ technicalKeywords, k.data <:+: (jsToLowerCase q).data := by
    simp [List.any_eq_true, strContains]
  have hS : (statisticsKeywords.any fun keyword => strContains (jsToLowerCase q) keyword) = true ↔
      ∃ k ∈ statisticsKeywords, k.data <:+: (jsToLowerCase q).data := by
    simp [List.any_eq_true, strContains]
  by_cases hTe : ∃ k ∈ technicalKeywords, k.data <:+: (jsToLowerCase q).data
  · have hval : analyzeQuestionType q = QuestionType.technical := by
      simp only [analyzeQuestionType]
      rw [if_pos (hT.mpr hTe)]
    simp [hval, hTe]
  · by_cases hSt : ∃ k ∈ statisticsKeywords, k.data <:+: (jsToLowerCase q).data
    · have hval : analyzeQuestionType q = QuestionType.statistics := by
        simp only [analyzeQuestionType]
        rw [if_neg (fun hc => hTe (hT.mp hc)), if_pos (hS.mpr hSt)]
      simp [hval, hTe, hSt]
    · have hval : analyzeQuestionType q = QuestionType.general := by
        simp only [analyzeQuestionType]
        rw [if_neg (fun hc => hTe (hT.mp hc)), if_neg (fun hc => hSt (hS.mp hc))]
      simp [hval, hTe, hSt]

/-- C7: the general answer for "What is this repository about?" on a
repository with description "A test tool", language "Go", no homepage and no
topics contains the description and the language, and omits both the homepage
clause and the topics clause. -/
theorem generateGeneralAnswer_about_sample :
    strContains (generateGeneralAnswer
      { description := some "A test tool", homepage := none, language := some "Go",
        size := 0, stargazers_count := 0, forks_count := 0, open_issues_count := 0,
        created_at := "", updated_at := "", full_name := "t/t", has_pages := false,
        languages := ["Go"], topics := [] }
      "What is this repository about?") "A test tool" = true ∧
    strContains (generateGeneralAnswer
      { description := some "A test tool", homepage := none, language := some "Go",
        size := 0, stargazers_count := 0, forks_count := 0, open_issues_count := 0,
        created_at := "", updated_at := "", full_name := "t/t", has_pages := false,
        languages := ["Go"], topics := [] }
      "What is this repository about?") "Go" = true ∧
    strContains (generateGeneralAnswer
      { description := some "A test tool", homepage := none, language := some "Go",
        size := 0, stargazers_count := 0, forks_count := 0, open_issues_count := 0,
        created_at := "", updated_at := "", full_name := "t/t", has_pages := false,
        languages := ["Go"], topics := [] }
      "What is this repository about?") "You can find more information" = false ∧
    strContains (generateGeneralAnswer
      { description := some "A test tool", homepage := none, language := some "Go",
        size := 0, stargazers_count := 0, forks_count := 0, open_issues_count := 0,
        created_at := "", updated_at := "", full_name := "t/t", has_pages := false,
        languages := ["Go"], topics := [] }
      "What is this repository about?") "tagged with the following topics" = false := by
  decide

/-- A sample repository whose metadata fields are all absent. -/
def noDescRepo : RepoInfo :=
  { description := none, homepage := none, language := none, size := 0,
    stargazers_count := 0, forks_count := 0, open_issues_count := 0,
    created_at := "", updated_at := "", full_name := "n/n", has_pages := false,
    languages := [], topics := [] }

/-- The repository used in the stars/forks statistics sample. -/
def starsSampleRepo : RepoInfo :=
  { description := none, homepage := none, language := none, size := 999,
    stargazers_count := 42, forks_count := 7, open_issues_count := 55,
    created_at := "2019-05-05T00:00:00Z", updated_at := "2021-07-07T00:00:00Z",
    full_name := "a/b", has_pages := false, languages := ["C"], topics := [] }

/-- C2 counterexample: the statistics dispatch is not performed on the
lower-cased question.  "Languages?" contains "language" after lower-casing,
yet the generator does not return the language-count sentence for it. -/
theorem generateStatisticsAnswer_not_lowercased :
    strContains (jsToLowerCase "Languages?") "language" = true ∧
    generateStatisticsAnswer id sampleRepoInfo "Languages?" ≠
      "The repository uses 2 languages: Go, Lean" := by
  constructor
  · decide
  · decide

/-- C2 (amended): the statistics answer dispatches by a case-sensitive
substring test on the original question, first match wins: "language" gives
the language-count sentence, else "popular" or "stars" gives the stars/forks
sentence, else "issue" gives the open-issue sentence, else the full six-stat
snapshot. -/
theorem generateStatisticsAnswer_dispatch (fmtDate : String → String)
    (repoInfo : RepoInfo) (question : String) :
    (strContains question "language" = true →
      generateStatisticsAnswer fmtDate repoInfo question =
        "The repository uses " ++ toString repoInfo.languages.length ++
          " languages: " ++ String.intercalate ", " repoInfo.languages) ∧
    (strContains question "language" = false →
      (strContains question "popular" = true ∨ strContains question "stars" = true) →
      generateStatisticsAnswer fmtDate repoInfo question =
        "The repository has " ++ toString repoInfo.stargazers_count ++
          " stars and " ++ toString repoInfo.forks_count ++ " forks") ∧
    (strContains question "language" = false →
      strContains question "popular" = false →
      strContains question "stars" = false →
      strContains question "issue" = true →
      generateStatisticsAnswer fmtDate repoInfo question =
        "There are currently " ++ toString repoInfo.open_issues_count ++
          " open issues") ∧
    (strContains question "language" = false →
      strContains question "popular" = false →
      strContains question "stars" = false →
      strContains question "issue" = false →
      generateStatisticsAnswer fmtDate repoInfo question =
        "Repository statistics:\n- Size: " ++ toString repoInfo.size ++
          "KB\n- Stars: " ++ toString repoInfo.stargazers_count ++
          "\n- Forks: " ++ toString repoInfo.forks_count ++
          "\n- Open Issues: " ++ toString repoInfo.open_issues_count ++
          "\n- Created: " ++ fmtDate repoInfo.created_at ++
          "\n- Last Updated: " ++ fmtDate repoInfo.updated_at) := by
  refine ⟨fun h1 => ?_, fun h1 h2 => ?_, fun h1 h2 h3 h4 => ?_, fun h1 h2 h3 h4 => ?_⟩
  · simp [generateStatisticsAnswer, h1]
  · rcases h2 with h2 | h2 <;> simp [generateStatisticsAnswer, h1, h2]
  · simp [generateStatisticsAnswer, h1, h2, h3, h4]
  · simp [generateStatisticsAnswer, h1, h2, h3, h4]

/-- Witness for the amended C2 dispatch theorem at a concrete question. -/
theorem generateStatisticsAnswer_dispatch_witness :
    generateStatisticsAnswer id sampleRepoInfo "language breakdown?" =
      "The repository uses " ++ toString sampleRepoInfo.languages.length ++
        " languages: " ++ String.intercalate ", " sampleRepoInfo.languages :=
  (generateStatisticsAnswer_dispatch id sampleRepoInfo "language breakdown?").1 (by decide)

/-- C8: the stars question yields exactly the fixed stars/forks sentence with
the star and fork counts substituted, and that text mentions none of the size,
issue-count or date fields. -/
theorem generateStatisticsAnswer_stars_sample (fmtDate : String → String) :
    generateStatisticsAnswer fmtDate starsSampleRepo "How many stars?" =
      "The repository has 42 stars and 7 forks" ∧
    strContains (generateStatisticsAnswer fmtDate starsSampleRepo "How many stars?")
      "Size" = false ∧
    strContains (generateStatisticsAnswer fmtDate starsSampleRepo "How many stars?")
      "issue" = false ∧
    strContains (generateStatisticsAnswer fmtDate starsSampleRepo "How many stars?")
      "Created" = false ∧
    strContains (generateStatisticsAnswer fmtDate starsSampleRepo "How many stars?")
      "Updated" = false := by
  have h : generateStatisticsAnswer fmtDate starsSampleRepo "How many stars?" =
      "The repository has 42 stars and 7 forks" := rfl
  refine ⟨h, ?_, ?_, ?_, ?_⟩ <;> rw [h] <;> decide

/-- C10: the general answer dispatches on "about" case-sensitively over the
original question: when "about" occurs only in capitalized form, the short
non-about branch runs, which echoes the raw description and renders the
"undefined" placeholder when the description is absent. -/
theorem generateGeneralAnswer_about_case_sensitive (repoInfo : RepoInfo)
    (question : String)
    (hlower : strContains (jsToLowerCase question) "about" = true)
    (horig : strContains question "about" = false) :
    generateGeneralAnswer repoInfo question =
      "I found some general information about the repository: " ++
        jsInterp repoInfo.description ∧
    (repoInfo.description = none →
      strContains (generateGeneralAnswer repoInfo question) "undefined" = true) := by
  have hbranch : generateGeneralAnswer repoInfo question =
      "I found some general information about the repository: " ++
        jsInterp repoInfo.description := by
    simp [generateGeneralAnswer, horig]
  refine ⟨hbranch, fun hd => ?_⟩
  rw [hbranch, hd]
  decide

/-- Witness for C10 at a concrete capitalized-About question on a repository
with no description. -/
theorem generateGeneralAnswer_about_case_sensitive_witness :
    generateGeneralAnswer noDescRepo "Tell me About this" =
      "I found some general information about the repository: " ++
        jsInterp noDescRepo.description ∧
    (noDescRepo.description = none →
      strContains (generateGeneralAnswer noDescRepo "Tell me About this")
        "undefined" = true) :=
  generateGeneralAnswer_about_case_sensitive noDescRepo "Tell me About this"
    (by decide) (by decide)

/-- A sample Octokit whose calls all succeed and whose code search finds
nothing. -/
def sampleOctokit : Octokit :=
  { reposGet := Except.ok sampleRepoData
    listLanguages := Except.ok ["Go", "Lean"]
    getAllTopics := Except.ok []
    searchCode := fun _ => Except.ok [] }

/-- A sample Octokit whose repository fetch fails. -/
def failingOctokit : Octokit :=
  { reposGet := Except.error "Not Found"
    listLanguages := Except.ok []
    getAllTopics := Except.ok []
    searchCode := fun _ => Except.ok [] }

/-- A sample Octokit whose code search returns one hit. -/
def hitOctokit : Octokit :=
  { reposGet := Except.ok sampleRepoData
    listLanguages := Except.ok ["Go", "Lean"]
    getAllTopics := Except.ok []
    searchCode := fun _ => Except.ok
      [{ name := "main.go", path := "src/main.go", html_url := "https://x/main.go" }] }

/-- A sample request carrying a general question and no context. -/
def sampleParams : Params :=
  { owner := "octo", repo := "demo",
    question := "What is this repository about?", context := none }

/-- A sample request carrying a technical question and no context. -/
def techParams : Params :=
  { owner := "octo", repo := "demo",
    question := "how do I use this", context := none }

/-- Helper: a successful run of the orchestrator factors through a successful
repository fetch and a successful `generateAnswer`. -/
theorem answer_repository_question_ok_cases (octokit : Octokit)
    (fmtDate : String → String) (params : Params) (userSettings : UserSettings)
    (a : Answer)
    (hok : (answer_repository_question octokit fmtDate params userSettings).1 =
      Except.ok a) :
    ∃ repoInfo n m, getRepositoryInfo octokit = (Except.ok repoInfo, n) ∧
      generateAnswer octokit fmtDate repoInfo params.question params.context =
        (Except.ok a, m) := by
  rcases ht : jsTruthyStr userSettings.githubToken with _ | _
  · simp [answer_repository_question, ht] at hok
  · rcases hgi : getRepositoryInfo octokit with ⟨res, n⟩
    rcases res with e | repoInfo
    · simp [answer_repository_question, ht, hgi] at hok
    · rcases hga : generateAnswer octokit fmtDate repoInfo params.question params.context
        with ⟨ga, m⟩
      rcases ga with e | ans
      · simp [answer_repository_question, ht, hgi, hga] at hok
      · simp [answer_repository_question, ht, hgi, hga] at hok
        subst hok
        exact ⟨repoInfo, n, m, rfl, hga⟩

/-- Helper: a successful `generateAnswer` fills `suggestions` exactly when the
context is truthy, and its `relatedFiles` can be non-empty only on the
technical path with a non-empty search result. -/
theorem generateAnswer_ok_dissect (octokit : Octokit) (fmtDate : String → String)
    (repoInfo : RepoInfo) (question : String) (context : Option String)
    (a : Answer) (m : Nat)
    (h : generateAnswer octokit fmtDate repoInfo question context =
      (Except.ok a, m)) :
    a.suggestions = (if jsTruthyStr context then
        generateSuggestions repoInfo question (jsInterp context) else []) ∧
    (a.relatedFiles ≠ [] →
      analyzeQuestionType question = QuestionType.technical ∧
      ∃ items, octokit.searchCode (searchQuery repoInfo question) = Except.ok items ∧
        items ≠ []) := by
  rcases hq : analyzeQuestionType question with _ | _ | _
  · simp [generateAnswer, hq] at h
    obtain ⟨ha, hm⟩ := h
    subst ha
    exact ⟨rfl, fun hne => absurd rfl hne⟩
  · rcases hsc : octokit.searchCode (searchQuery repoInfo question) with e | items
    · simp [generateAnswer, hq, findTechnicalAnswer, hsc] at h
    · simp [generateAnswer, hq, findTechnicalAnswer, hsc] at h
      obtain ⟨ha, hm⟩ := h
      subst ha
      refine ⟨rfl, fun hne => ⟨rfl, items, rfl, ?_⟩⟩
      intro hitems
      subst hitems
      simp at hne
  · simp [generateAnswer, hq] at h
    obtain ⟨ha, hm⟩ := h
    subst ha
    exact ⟨rfl, fun hne => absurd rfl hne⟩

/-- C3: a falsy GitHub token makes `answer_repository_question` fail with the
missing-credential error, with zero external API calls attempted. -/
theorem answer_repository_question_missing_token (octokit : Octokit)
    (fmtDate : String → String) (params : Params) (userSettings : UserSettings)
    (h : jsTruthyStr userSettings.githubToken = false) :
    answer_repository_question octokit fmtDate params userSettings =
      (Except.error "GitHub token is required", 0) := by
  simp [answer_repository_question, h]

/-- Witness for C3: no token at all. -/
theorem answer_repository_question_missing_token_witness :
    answer_repository_question sampleOctokit id sampleParams
      { githubToken := none } =
      (Except.error "GitHub token is required", 0) :=
  answer_repository_question_missing_token sampleOctokit id sampleParams
    { githubToken := none } rfl

/-- C4: with a truthy token, a failing repository fetch — or a failing code
search on the technical path — surfaces as the single wrapped error whose
message is exactly "Failed to answer question: " followed by the original
message, and no answer is returned. -/
theorem answer_repository_question_wraps_errors (octokit : Octokit)
    (fmtDate : String → String) (params : Params) (userSettings : UserSettings)
    (e : String) (htoken : jsTruthyStr userSettings.githubToken = true) :
    ((getRepositoryInfo octokit).1 = Except.error e →
      (answer_repository_question octokit fmtDate params userSettings).1 =
        Except.error ("Failed to answer question: " ++ e)) ∧
    (∀ repoInfo, (getRepositoryInfo octokit).1 = Except.ok repoInfo →
      analyzeQuestionType params.question = QuestionType.technical →
      octokit.searchCode (searchQuery repoInfo params.question) = Except.error e →
      (answer_repository_question octokit fmtDate params userSettings).1 =
        Except.error ("Failed to answer question: " ++ e)) := by
  constructor
  · intro herr
    rcases hgi : getRepositoryInfo octokit with ⟨res, n⟩
    rw [hgi] at herr
    simp only at herr
    subst herr
    simp [answer_repository_question, htoken, hgi]
  · intro repoInfo hok htech hsearch
    rcases hgi : getRepositoryInfo octokit with ⟨res, n⟩
    rw [hgi] at hok
    simp only at hok
    subst hok
    simp [answer_repository_question, htoken, hgi, generateAnswer, htech,
      findTechnicalAnswer, hsearch]

/-- Witness for C4: a repository fetch failing with "Not Found". -/
theorem answer_repository_question_wraps_errors_witness :
    (answer_repository_question failingOctokit id sampleParams
      { githubToken := some "token-1" }).1 =
      Except.error ("Failed to answer question: " ++ "Not Found") :=
  (answer_repository_question_wraps_errors failingOctokit id sampleParams
    { githubToken := some "token-1" } "Not Found" rfl).1 rfl

/-- C9: with a successful code search, zero hits give the fixed "could not
find" message and an empty file list; with hits, the message lists each path
and url and the file list maps each hit to its name, path and url. -/
theorem findTechnicalAnswer_hits (octokit : Octokit) (repoInfo : RepoInfo)
    (question : String) (items : List SearchItem)
    (h : octokit.searchCode (searchQuery repoInfo question) = Except.ok items) :
    (items = [] →
      findTechnicalAnswer octokit repoInfo question =
        Except.ok
          ("I could not find any relevant code files for your technical question.",
            [])) ∧
    (items ≠ [] →
      findTechnicalAnswer octokit repoInfo question =
        Except.ok
          ("I found some relevant files that might help answer your question:\n\n" ++
            String.intercalate "\n"
              (items.map (fun i => "- " ++ i.path ++ " (" ++ i.html_url ++ ")")),
           items.map (fun i =>
             { name := i.name, path := i.path, url := i.html_url }))) := by
  constructor
  · intro hnil
    subst hnil
    simp [findTechnicalAnswer, h]
  · intro hne
    rcases items with _ | ⟨it, rest⟩
    · exact absurd rfl hne
    · simp [findTechnicalAnswer, h, Function.comp_def]

/-- Witness for C9: one search hit produces the listing and one file entry. -/
theorem findTechnicalAnswer_hits_witness :
    findTechnicalAnswer hitOctokit sampleRepoInfo "how do I use this" =
      Except.ok
        ("I found some relevant files that might help answer your question:\n\n" ++
          String.intercalate "\n"
            (([{ name := "main.go", path := "src/main.go",
                 html_url := "https://x/main.go" }] : List SearchItem).map
              (fun i => "- " ++ i.path ++ " (" ++ i.html_url ++ ")")),
         ([{ name := "main.go", path := "src/main.go",
             html_url := "https://x/main.go" }] : List SearchItem).map
           (fun i => { name := i.name, path := i.path, url := i.html_url })) :=
  (findTechnicalAnswer_hits hitOctokit sampleRepoInfo "how do I use this"
    [{ name := "main.go", path := "src/main.go", html_url := "https://x/main.go" }]
    rfl).2 (by simp)

/-- C5: `generateSuggestions` returns exactly the advisories whose condition
holds, in the fixed order (expressed as a filter over the ordered
condition/advisory table), and a request without context always yields an
answer with empty suggestions. -/
theorem generateSuggestions_exact_subset (repoInfo : RepoInfo)
    (question context : String) (octokit : Octokit) (fmtDate : String → String)
    (params : Params) (userSettings : UserSettings) (a : Answer) :
    generateSuggestions repoInfo question context =
      List.map Prod.snd (List.filter Prod.fst
        [((!jsTruthyStr repoInfo.description),
          "Add a repository description to help users understand the project better"),
         ((!jsTruthyStr repoInfo.homepage && !repoInfo.has_pages),
          "Consider adding a homepage or enabling GitHub Pages"),
         ((repoInfo.topics.length == 0),
          "Add repository topics to improve discoverability"),
         ((decide (repoInfo.open_issues_count > 20)),
          "Consider addressing some open issues to improve repository health")]) ∧
    (params.context = none →
      (answer_repository_question octokit fmtDate params userSettings).1 =
        Except.ok a →
      a.suggestions = []) := by
  constructor
  · rcases h1 : jsTruthyStr repoInfo.description with _ | _ <;>
    rcases h2 : jsTruthyStr repoInfo.homepage with _ | _ <;>
    rcases h3 : repoInfo.has_pages with _ | _ <;>
    by_cases h4 : repoInfo.topics.length = 0 <;>
    by_cases h5 : repoInfo.open_issues_count > 20 <;>
    simp [generateSuggestions, h1, h2, h3, h4, h5,
      List.filter_cons, List.filter_nil, beq_iff_eq, decide_eq_true_eq]
  · intro hctx hok
    obtain ⟨repoInfo2, n, m, hgi, hga⟩ :=
      answer_repository_question_ok_cases octokit fmtDate params userSettings a hok
    obtain ⟨hsugg, -⟩ :=
      generateAnswer_ok_dissect octokit fmtDate repoInfo2 params.question
        params.context a m hga
    rw [hctx] at hsugg
    simpa using hsugg

/-- Witness for C5 on a concrete no-context request that succeeds. -/
theorem generateSuggestions_exact_subset_witness :
    ({ text := "This repository is A demo tool written primarily in Go.  ",
       relatedFiles := [], suggestions := [] } : Answer).suggestions = [] :=
  (generateSuggestions_exact_subset sampleRepoInfo "q" "c" sampleOctokit id
    sampleParams { githubToken := some "tok" }
    { text := "This repository is A demo tool written primarily in Go.  ",
      relatedFiles := [], suggestions := [] }).2 rfl rfl

/-- C6: a returned answer has non-empty `relatedFiles` only when the question
classified as technical and the code search succeeded with at least one
result. -/
theorem answer_relatedFiles_technical (octokit : Octokit)
    (fmtDate : String → String) (params : Params) (userSettings : UserSettings)
    (a : Answer)
    (hok : (answer_repository_question octokit fmtDate params userSettings).1 =
      Except.ok a)
    (hne : a.relatedFiles ≠ []) :
    analyzeQuestionType params.question = QuestionType.technical ∧
    ∃ repoInfo items n, getRepositoryInfo octokit = (Except.ok repoInfo, n) ∧
      octokit.searchCode (searchQuery repoInfo params.question) =
        Except.ok items ∧
      items ≠ [] := by
  obtain ⟨repoInfo, n, m, hgi, hga⟩ :=
    answer_repository_question_ok_cases octokit fmtDate params userSettings a hok
  obtain ⟨-, hrel⟩ :=
    generateAnswer_ok_dissect octokit fmtDate repoInfo params.question
      params.context a m hga
  obtain ⟨htech, items, hsc, hne2⟩ := hrel hne
  exact ⟨htech, repoInfo, items, n, hgi, hsc, hne2⟩

/-- Witness for C6: a technical question with one search hit. -/
theorem answer_relatedFiles_technical_witness :
    analyzeQuestionType techParams.question = QuestionType.technical ∧
    ∃ repoInfo items n, getRepositoryInfo hitOctokit = (Except.ok repoInfo, n) ∧
      hitOctokit.searchCode (searchQuery repoInfo techParams.question) =
        Except.ok items ∧
      items ≠ [] :=
  answer_relatedFiles_technical hitOctokit id techParams
    { githubToken := some "tok" }
    { text := "I found some relevant files that might help answer your question:\n\n- src/main.go (https://x/main.go)"
      relatedFiles := [{ name := "main.go", path := "src/main.go", url := "https://x/main.go" }]
      suggestions := [] }
    rfl (by simp)

end RepoAssistant
